import Mathlib

/-!
Verification of the correlation-analysis orchestration layer
(`tuna/stats/api.py` and `tuna/stats/two.py`).

The Python code is shallowly embedded: observables, parsers, regions and
computation options become structures recording exactly the attributes the
code reads; exceptions become an explicit `Except` over an error inductive;
the mutable per-condition reference dictionaries of a `Univariate` become
explicit functional updates; the side-effect order of the orchestration
functions is captured by traces of action labels.  Numeric time grids are
modelled over `ℚ` (the code computes them with numpy floats; the structure
of the computation is exact rational arithmetic).
-/

namespace Tuna

/-- Errors raised by the statistics layer: `TypeError` for observable
compatibility, `BivariateError` for pairing mismatches, `ParamsError` for
invalid (region, options), `AttributeError` for a missing Python attribute,
and the cache-miss kind `StationaryUnivariateIOError`. -/
inductive PyError where
  | typeError (msg : String)
  | bivariateError (msg : String)
  | paramsError (msg : String)
  | attributeError (attr : String)
  | stationaryUnivariateIOError
deriving DecidableEq, Repr

/-- An Observable as read by this layer: its timing mode (the code compares
against the string "g"), its analysis mode (compared against "dynamics"),
and its canonical label `str(obs)`. -/
structure Observable where
  timing : String
  mode : String
  name : String
deriving DecidableEq, Repr

/-- A condition (FilterSet) represented by its canonical textual identity
`repr(cdt)` — the code compares conditions only through `repr`. -/
structure Condition where
  rep : String
deriving DecidableEq, Repr

/-- The parser attributes this layer reads: `parser.experiment.abspath` and
`repr(parser.fset)`. -/
structure ExpParser where
  expAbspath : String
  fsetRep : String
deriving DecidableEq, Repr

/-- Which of the attributes `name`, `tmin`, `tmax` a region object exposes
(`_check_params` tests them with `hasattr`). -/
structure RegionAttrs where
  hasName : Bool
  hasTmin : Bool
  hasTmax : Bool
deriving DecidableEq, Repr

/-- The shape of an options object: whether it is a `CompuParams` instance,
and which attributes it exposes (`StationaryBivariate.__init__` and
`StationaryBivariateConditioned.__init__` read `adjust_mean`, `disjoint`
and `as_string_code` without any isinstance check). -/
structure OptionsAttrs where
  isCompuParams : Bool
  hasAdjustMean : Bool
  hasDisjoint : Bool
  hasStringCode : Bool
deriving DecidableEq, Repr

/-- A Univariate as this layer uses it: its observable, parser, condition
list, and the two per-condition reference dictionaries
`univ[label].two` and `univ[label].two_stationary` (condition label and
partner-observable key to the stored conditioned item, identified by its
condition label). -/
structure Univariate where
  obs : Observable
  parser : ExpParser
  cset : List Condition
  twoRefs : String → String → Option String
  twoStatRefs : String → String → Option String

/-- Embedding of `_check_params` (api.py lines 114-121): options must be a
CompuParams instance, and region must expose tmin, tmax and name. -/
def _check_params (region : RegionAttrs) (options : OptionsAttrs) :
    Except PyError Unit :=
  if !options.isCompuParams then
    .error (.paramsError "options must be a CompuParams instance")
  else if !region.hasTmin || !region.hasTmax || !region.hasName then
    .error (.paramsError "region must have name, tmin, tmax attributes")
  else
    .ok ()

/-- Embedding of the observable-compatibility guard of `compute_bivariate`
(api.py lines 241-257).  Note the whole guard sits under the test
`obs1.mode != obs2.mode`. -/
def compatibilityGuard (obs1 obs2 : Observable) : Except PyError Unit :=
  if obs1.mode ≠ obs2.mode then
    if obs1.mode = "dynamics" ∨ obs2.mode = "dynamics" then
      .error (.typeError "Cannot mix time-lapse and cell-cycle observables")
    else if obs1.timing = "g" then
      if obs2.timing ≠ "g" then
        .error (.typeError "If one observable is evaluated in generation time, the other one must be as well in generation time.")
      else .ok ()
    else if obs2.timing = "g" then
      if obs1.timing ≠ "g" then
        .error (.typeError "If one observable is evaluated in generation time, the other one must be as well in generation time.")
      else .ok ()
    else .ok ()
  else .ok ()

/-- The shared-condition computation of `Bivariate.__init__` (two.py lines
189-193) and `StationaryBivariate.__init__` (lines 361-365): keep the
conditions of the row Univariate whose repr appears among the reprs of the
column Univariate's conditions. -/
def sharedCset (cset1 cset2 : List Condition) : List Condition :=
  cset1.filter (fun cdt => decide (cdt.rep ∈ cset2.map Condition.rep))

/-- The data both bivariate constructors build after their pairing checks:
the shared condition list and the condition labels, reserved label "master"
first (two.py lines 186-202 and 353-375). -/
structure BivData where
  cset : List Condition
  conditionLabels : List String
deriving DecidableEq, Repr

/-- Common construction of the shared conditions and condition labels in
`Bivariate.__init__` and `StationaryBivariate.__init__`. -/
def mkBivariateData (s1 s2 : Univariate) : BivData :=
  let cset := sharedCset s1.cset s2.cset
  { cset := cset, conditionLabels := "master" :: cset.map Condition.rep }

/-- Embedding of `Bivariate.__init__` (two.py lines 179-203): pairing checks
on the experiment path identity and the filter-set canonical identity, then
construction of the shared conditions and conditioned items. -/
def bivariateInit (s1 s2 : Univariate) : Except PyError BivData :=
  if s1.parser.expAbspath ≠ s2.parser.expAbspath then
    .error (.bivariateError "Experiments do not match")
  else if s1.parser.fsetRep ≠ s2.parser.fsetRep then
    .error (.bivariateError "Filter sets do not match")
  else
    .ok (mkBivariateData s1 s2)

/-- Embedding of `StationaryBivariate.__init__` (two.py lines 342-376): the
same pairing checks, followed by the attribute reads the body performs
(`region.name`, `region.tmin`, `region.tmax`, `options.adjust_mean`,
`options.disjoint`, and `options.as_string_code` inside the conditioned
items it creates); a missing attribute raises AttributeError.  No
`_check_params` call appears in this constructor. -/
def stationaryBivariateInit (s1 s2 : Univariate)
    (region : RegionAttrs) (options : OptionsAttrs) : Except PyError BivData :=
  if s1.parser.expAbspath ≠ s2.parser.expAbspath then
    .error (.bivariateError "Experiments do not match")
  else if s1.parser.fsetRep ≠ s2.parser.fsetRep then
    .error (.bivariateError "Filter sets do not match")
  else if !region.hasName then .error (.attributeError "name")
  else if !region.hasTmin then .error (.attributeError "tmin")
  else if !region.hasTmax then .error (.attributeError "tmax")
  else if !options.hasAdjustMean then .error (.attributeError "adjust_mean")
  else if !options.hasDisjoint then .error (.attributeError "disjoint")
  else if !options.hasStringCode then .error (.attributeError "as_string_code")
  else .ok (mkBivariateData s1 s2)

/-- One dictionary assignment `refs[lab][key] = v` on a per-condition,
per-partner-key reference table. -/
def setRef (m : String → String → Option String) (lab key v : String) :
    String → String → Option String :=
  fun l k => if l = lab ∧ k = key then some v else m l k

/-- The loop of `_update_univariate_from_bivariate` (api.py lines 190-195)
restricted to one Univariate: for every condition label of the bivariate,
store the conditioned item (identified by its label) under the partner
observable key. -/
def installRefs (m : String → String → Option String)
    (labels : List String) (key : String) : String → String → Option String :=
  labels.foldl (fun acc lab => setRef acc lab key lab) m

/-- Effect of `_update_univariate_from_bivariate` on one Univariate's `two`
dictionaries. -/
def updateTwoRefs (u : Univariate) (labels : List String) (key : String) :
    Univariate :=
  { u with twoRefs := installRefs u.twoRefs labels key }

/-- Effect of `_update_univariate_from_stationary_bivariate` on one
Univariate's `two_stationary` dictionaries (api.py lines 270-275). -/
def updateTwoStatRefs (u : Univariate) (labels : List String) (key : String) :
    Univariate :=
  { u with twoStatRefs := installRefs u.twoStatRefs labels key }

/-- Action labels tracing the side effects of `compute_bivariate`. -/
inductive BAction where
  | guardCheck
  | pairCheck
  | acquireIter
  | runEngine
  | installBackrefs
deriving DecidableEq, Repr

/-- Embedding of `compute_bivariate` (api.py lines 217-267): the
compatibility guard, then `Bivariate` construction (pairing checks), then
iterator acquisition, the aggregation engine (external, fills the bivariate
arrays only), and the back-reference installation.  The first component
traces which actions were reached. -/
def compute_bivariate (s1 s2 : Univariate) :
    List BAction × Except PyError (Univariate × Univariate × BivData) :=
  match compatibilityGuard s1.obs s2.obs with
  | .error e => ([.guardCheck], .error e)
  | .ok _ =>
    match bivariateInit s1 s2 with
    | .error e => ([.guardCheck, .pairCheck], .error e)
    | .ok two =>
      let s1' := updateTwoRefs s1 two.conditionLabels s2.obs.name
      let s2' := updateTwoRefs s2 two.conditionLabels s1.obs.name
      ([.guardCheck, .pairCheck, .acquireIter, .runEngine, .installBackrefs],
        .ok (s1', s2', two))

/-- Embedding of `initialize_bivariate` (api.py lines 198-214): `Bivariate`
construction then back-reference installation (no guard, no iteration). -/
def initialize_bivariate (s1 s2 : Univariate) :
    Except PyError (Univariate × Univariate × BivData) :=
  match bivariateInit s1 s2 with
  | .error e => .error e
  | .ok two =>
    .ok (updateTwoRefs s1 two.conditionLabels s2.obs.name,
         updateTwoRefs s2 two.conditionLabels s1.obs.name, two)

/-- Embedding of `initialize_stationary_bivariate` (api.py lines 278-297):
`StationaryBivariate` construction then back-reference installation.  It
performs no `_check_params` validation. -/
def initialize_stationary_bivariate (s1 s2 : Univariate)
    (region : RegionAttrs) (options : OptionsAttrs) :
    Except PyError (Univariate × Univariate × BivData) :=
  match stationaryBivariateInit s1 s2 region options with
  | .error e => .error e
  | .ok stwo =>
    .ok (updateTwoStatRefs s1 stwo.conditionLabels s2.obs.name,
         updateTwoStatRefs s2 stwo.conditionLabels s1.obs.name, stwo)

/-- Action labels tracing the stationary-univariate operations. -/
inductive UAction where
  | uCheckParams
  | uCreate
  | uIterate
  | uEngine
  | uUpdate
deriving DecidableEq, Repr

/-- Embedding of `initialize_stationary_univariate` (api.py lines 124-142):
`_check_params`, then creation of the StationaryUnivariate and write-back of
its conditioned items into the Univariate. -/
def initialize_stationary_univariate (region : RegionAttrs)
    (options : OptionsAttrs) : List UAction × Except PyError Unit :=
  match _check_params region options with
  | .error e => ([.uCheckParams], .error e)
  | .ok _ => ([.uCheckParams, .uCreate, .uUpdate], .ok ())

/-- Embedding of `compute_stationary_univariate` (api.py lines 152-186):
`_check_params`, creation, iterator acquisition, engine invocation, and
write-back into the Univariate. -/
def compute_stationary_univariate (region : RegionAttrs)
    (options : OptionsAttrs) : List UAction × Except PyError Unit :=
  match _check_params region options with
  | .error e => ([.uCheckParams], .error e)
  | .ok _ => ([.uCheckParams, .uCreate, .uIterate, .uEngine, .uUpdate], .ok ())

/-- Outcome of `suniv.import_from_text()` for one dependency of
`compute_stationary_bivariate`: the read succeeds, raises the cache-miss
kind `StationaryUnivariateIOError`, or raises some other error. -/
inductive ReadOutcome where
  | success
  | ioMiss
  | failure (e : PyError)
deriving DecidableEq, Repr

/-- Action labels tracing `compute_stationary_bivariate`; the index names
which of the two Univariates (0 = row, 1 = column) an action concerns. -/
inductive SAction where
  | checkParams (k : Nat)
  | initSUniv (k : Nat)
  | readCache (k : Nat)
  | computeSUniv (k : Nat)
  | exportSUniv (k : Nat)
  | initSBiv
  | crossPhase
deriving DecidableEq, Repr

/-- One iteration of the dependency loop of `compute_stationary_bivariate`
(api.py lines 311-318): `initialize_stationary_univariate` (which starts
with `_check_params`), then the cache read; only the cache-miss kind
`StationaryUnivariateIOError` is caught and answered by computing the
stationary univariate and exporting it; any other error propagates. -/
def depStep (k : Nat) (region : RegionAttrs) (options : OptionsAttrs)
    (read : ReadOutcome) : List SAction × Except PyError Unit :=
  match _check_params region options with
  | .error e => ([.checkParams k], .error e)
  | .ok _ =>
    match read with
    | .success => ([.checkParams k, .initSUniv k, .readCache k], .ok ())
    | .ioMiss =>
      ([.checkParams k, .initSUniv k, .readCache k,
        .computeSUniv k, .exportSUniv k], .ok ())
    | .failure e => ([.checkParams k, .initSUniv k, .readCache k], .error e)

/-- Embedding of `compute_stationary_bivariate` (api.py lines 300-331): the
dependency loop over the two Univariates, then `StationaryBivariate`
construction, the paired-iterator cross phase, and back-reference
installation.  `read0`/`read1` give the outcome each cache read would have. -/
def compute_stationary_bivariate (s1 s2 : Univariate)
    (region : RegionAttrs) (options : OptionsAttrs)
    (read0 read1 : ReadOutcome) :
    List SAction × Except PyError (Univariate × Univariate × BivData) :=
  match depStep 0 region options read0 with
  | (t0, .error e) => (t0, .error e)
  | (t0, .ok _) =>
    match depStep 1 region options read1 with
    | (t1, .error e) => (t0 ++ t1, .error e)
    | (t1, .ok _) =>
      match stationaryBivariateInit s1 s2 region options with
      | .error e => (t0 ++ t1 ++ [.initSBiv], .error e)
      | .ok stwo =>
        let s1' := updateTwoStatRefs s1 stwo.conditionLabels s2.obs.name
        let s2' := updateTwoStatRefs s2 stwo.conditionLabels s1.obs.name
        (t0 ++ t1 ++ [.initSBiv, .crossPhase], .ok (s1', s2', stwo))

/-- Domain constant `MIN_INTERDIVISION_TIME` (api.py line 23). -/
def MIN_INTERDIVISION_TIME : ℚ := 5

/-- Model of `numpy.arange(start, stop, step)` for positive step over exact
rationals: the values `start + k * step` for `0 ≤ k < ⌈(stop - start) / step⌉`. -/
def np_arange (start stop step : ℚ) : List ℚ :=
  (List.range (Int.toNat ⌈(stop - start) / step⌉)).map
    (fun k => start + (k : ℚ) * step)

/-- The evaluation-time grid of `compute_univariate_dynamics` and
`initialize_univariate` (api.py lines 57-68 and 92-103): with timing other
than "g", tmin/tmax come from the region and period from the experiment;
with timing "g", period is 1 and the grid spans the symmetric generation
range given by `MIN_INTERDIVISION_TIME`; in both cases the grid is
`arange(tmin, tmax + period, period)`. -/
def eval_times (timing : String) (expPeriod regTmin regTmax : ℚ) : List ℚ :=
  if timing ≠ "g" then
    np_arange regTmin (regTmax + expPeriod) expPeriod
  else
    let period : ℚ := 1
    let n_max := (regTmax - regTmin) / MIN_INTERDIVISION_TIME
    np_arange (-n_max) (n_max + period) period

/-- Value denoted by formatting a number with two decimal places
(the times row of `BivariateConditioned.write_text`, format `.2f`,
two.py lines 62-69). -/
def fmt2f (q : ℚ) : ℚ := (round (q * 100) : ℚ) / 100

/-- Value denoted by formatting a number in scientific notation with eight
digits after the decimal point (numpy `savetxt` format `%.8e`, two.py lines
75-77): the mantissa is rounded to the step `10 ^ (e - 8)` where
`10 ^ e ≤ |q| < 10 ^ (e + 1)`. -/
def fmtE8 (q : ℚ) : ℚ :=
  if q = 0 then 0
  else
    let sign : ℚ := if q < 0 then -1 else 1
    let m := |q|
    let step : ℚ := (10 : ℚ) ^ (Int.log 10 m - 8)
    sign * ((round (m / step) : ℚ) * step)

/-- The numeric content of a populated `BivariateConditioned`: the two time
axes, the counts matrix and the two floating-point matrices. -/
structure BivCdtData where
  timesRow : List ℚ
  timesCol : List ℚ
  counts : List (List ℤ)
  cross : List (List ℚ)
  std_dev : List (List ℚ)
deriving DecidableEq, Repr

/-- The numeric values held by the four files `BivariateConditioned.write_text`
produces (`times.tsv`, `count_cross.tsv`, `cross.tsv`, `std_dev.tsv`); each
formatted decimal string is modelled by the exact rational it denotes. -/
structure BivCdtFiles where
  times_tsv : List ℚ × List ℚ
  count_cross_tsv : List (List ℤ)
  cross_tsv : List (List ℚ)
  std_dev_tsv : List (List ℚ)
deriving DecidableEq, Repr

/-- Embedding of `BivariateConditioned.write_text` (two.py lines 56-78):
times at two decimal places, counts as plain integers (format `%d`), cross
and std_dev matrices at format `%.8e`. -/
def bivCdt_write_text (d : BivCdtData) : BivCdtFiles :=
  { times_tsv := (d.timesRow.map fmt2f, d.timesCol.map fmt2f)
    count_cross_tsv := d.counts
    cross_tsv := d.cross.map (List.map fmtE8)
    std_dev_tsv := d.std_dev.map (List.map fmtE8) }

/-- Embedding of `BivariateConditioned.read_text` (two.py lines 80-108):
each file is parsed back, recovering exactly the numbers the text denotes. -/
def bivCdt_read_text (f : BivCdtFiles) : BivCdtData :=
  { timesRow := f.times_tsv.1
    timesCol := f.times_tsv.2
    counts := f.count_cross_tsv
    cross := f.cross_tsv
    std_dev := f.std_dev_tsv }

/-- Embedding of the basename computation in
`StationaryBivariateConditioned.__init__` (two.py lines 245-259): the name
built from "stationary_cross", the region name and the options string code
is unconditionally overwritten by the constant "stationary_bivariate". -/
def sbcBasename (regionName optionsCode : String) : String :=
  let basename := "stationary_cross"
  let basename := basename ++ "_" ++ regionName
  let basename := basename ++ "_" ++ optionsCode
  let _ := basename
  let basename := "stationary_bivariate"
  basename

/-- File name used by `StationaryBivariateConditioned.write_text` (two.py
line 292): `self.basename + ".tsv"`. -/
def sbcWriteFilename (regionName optionsCode : String) : String :=
  sbcBasename regionName optionsCode ++ ".tsv"

/-- File name used by `StationaryBivariateConditioned.read_text` (two.py
line 303): `self.basename + ".tsv"`. -/
def sbcReadFilename (regionName optionsCode : String) : String :=
  sbcBasename regionName optionsCode ++ ".tsv"

/-- Sample values used to evaluate the theorems at concrete inputs. -/
def sampleParser : ExpParser := ⟨"/data/exp", "FilterSet(all)"⟩

/-- A sample condition. -/
def sampleCondition : Condition := ⟨"FilterSet(cond1)"⟩

/-- A sample row Univariate (dynamics mode, real timing). -/
def sampleUniv1 : Univariate :=
  ⟨⟨"t", "dynamics", "obs1"⟩, sampleParser, [sampleCondition],
    fun _ _ => none, fun _ _ => none⟩

/-- A sample column Univariate sharing parser and condition with the row. -/
def sampleUniv2 : Univariate :=
  ⟨⟨"t", "dynamics", "obs2"⟩, sampleParser, [sampleCondition],
    fun _ _ => none, fun _ _ => none⟩

/-- A region exposing all three required attributes. -/
def sampleRegion : RegionAttrs := ⟨true, true, true⟩

/-- A genuine CompuParams-shaped options value. -/
def sampleOptions : OptionsAttrs := ⟨true, true, true, true⟩

/-- An options value that is not a CompuParams instance but still exposes
the attributes `StationaryBivariate.__init__` reads. -/
def badOptions : OptionsAttrs := ⟨false, true, true, true⟩

/-- Lookup characterization of `installRefs`: the back-reference loop sets
exactly the (condition label, partner key) entries for the labels it
visits, and leaves every other entry unchanged. -/
theorem installRefs_apply (m : String → String → Option String)
    (labels : List String) (key l k : String) :
    installRefs m labels key l k =
      if l ∈ labels ∧ k = key then some l else m l k := by
  induction labels generalizing m with
  | nil => simp [installRefs]
  | cons a as ih =>
    simp only [installRefs, List.foldl_cons] at ih ⊢
    rw [ih]
    by_cases hk : k = key
    · by_cases has : l ∈ as
      · simp [has, hk]
      · by_cases hla : l = a
        · subst hla; simp [has, hk, setRef]
        · simp [has, hk, hla, setRef]
    · simp [hk, setRef]

/-- C4: `_check_params` succeeds exactly when the region exposes name, tmin
and tmax and the options value is a CompuParams instance; in every other
case it raises `ParamsError` (one of its two messages), and it does nothing
else (in this embedding it is a pure function into `Except`). -/
theorem check_params_iff (region : RegionAttrs) (options : OptionsAttrs) :
    (_check_params region options = .ok () ↔
      (region.hasName = true ∧ region.hasTmin = true ∧ region.hasTmax = true ∧
        options.isCompuParams = true))
    ∧ (_check_params region options = .ok () ∨
        _check_params region options =
          .error (.paramsError "options must be a CompuParams instance") ∨
        _check_params region options =
          .error (.paramsError "region must have name, tmin, tmax attributes")) := by
  obtain ⟨n, t1, t2⟩ := region
  obtain ⟨c, a, dj, sc⟩ := options
  cases n <;> cases t1 <;> cases t2 <;> cases c <;>
    simp [_check_params]

/-- C10: the basename of a StationaryBivariateConditioned is the constant
"stationary_bivariate" whatever the region name and options code — the
name first assembled from "stationary_cross", the region and the options is
unconditionally overwritten — so write_text and read_text address the
identical on-disk file for every region and every options value. -/
theorem sbc_basename_constant (rn oc rn' oc' : String) :
    sbcBasename rn oc = "stationary_bivariate"
    ∧ sbcWriteFilename rn oc = "stationary_bivariate.tsv"
    ∧ sbcReadFilename rn oc = "stationary_bivariate.tsv"
    ∧ sbcWriteFilename rn oc = sbcWriteFilename rn' oc'
    ∧ sbcWriteFilename rn oc = sbcReadFilename rn' oc' := by
  exact ⟨rfl, rfl, rfl, rfl, rfl⟩

/-- C1 counterexample: two observables sharing the non-dynamics mode
"cell-cycle", one with timing "g" and one with timing "b".  Neither is in
dynamics mode and their timing modes differ with exactly one "generation",
yet the guard accepts the pair — because the entire guard sits under the
test that the modes differ. -/
theorem compat_guard_counterexample :
    compatibilityGuard ⟨"g", "cell-cycle", "o1"⟩ ⟨"b", "cell-cycle", "o2"⟩ = .ok ()
    ∧ ("cell-cycle" : String) ≠ "dynamics"
    ∧ ("g" : String) = "g"
    ∧ ("b" : String) ≠ "g" := by
  refine ⟨rfl, by decide, rfl, by decide⟩

/-- C1 (amended): the compatibility guard of `compute_bivariate` raises a
TypeError exactly when the two observables' modes differ and either one of
them is in "dynamics" mode or exactly one of the two has timing "g"; when
the modes are equal the guard is skipped even if the timings differ.  When
the guard raises, `compute_bivariate` stops before acquiring any iterator. -/
theorem compat_guard_spec (o1 o2 : Observable) (s1 s2 : Univariate) :
    ((∃ msg, compatibilityGuard o1 o2 = .error (.typeError msg)) ↔
      (o1.mode ≠ o2.mode ∧
        (o1.mode = "dynamics" ∨ o2.mode = "dynamics" ∨
          ¬ (o1.timing = "g" ↔ o2.timing = "g"))))
    ∧ (∀ e, compatibilityGuard s1.obs s2.obs = .error e →
        BAction.acquireIter ∉ (compute_bivariate s1 s2).1) := by
  constructor
  · unfold compatibilityGuard
    split_ifs with h1 h2 h3 h4 h5 <;> simp_all <;> try tauto
  · intro e he
    simp [compute_bivariate, he]

/-- C5: constructing a `Bivariate` or a `StationaryBivariate` from two
Univariates raises `BivariateError` exactly when the source-experiment path
identities or the filter-set canonical identities differ; when both agree
the pairing check passes — `Bivariate` construction succeeds outright, and
so does `StationaryBivariate` construction whenever region and options
expose the attributes its body reads.  A pairing failure inside
`compute_bivariate` occurs before any iterator is acquired. -/
theorem bivariate_pairing_check (s1 s2 : Univariate)
    (region : RegionAttrs) (options : OptionsAttrs) :
    ((∃ m, bivariateInit s1 s2 = .error (.bivariateError m)) ↔
      (s1.parser.expAbspath ≠ s2.parser.expAbspath ∨
        s1.parser.fsetRep ≠ s2.parser.fsetRep))
    ∧ ((∃ m, stationaryBivariateInit s1 s2 region options =
          .error (.bivariateError m)) ↔
        (s1.parser.expAbspath ≠ s2.parser.expAbspath ∨
          s1.parser.fsetRep ≠ s2.parser.fsetRep))
    ∧ (s1.parser.expAbspath = s2.parser.expAbspath →
        s1.parser.fsetRep = s2.parser.fsetRep →
        bivariateInit s1 s2 = .ok (mkBivariateData s1 s2))
    ∧ (s1.parser.expAbspath = s2.parser.expAbspath →
        s1.parser.fsetRep = s2.parser.fsetRep →
        region.hasName = true → region.hasTmin = true → region.hasTmax = true →
        options.hasAdjustMean = true → options.hasDisjoint = true →
        options.hasStringCode = true →
        stationaryBivariateInit s1 s2 region options =
          .ok (mkBivariateData s1 s2))
    ∧ (∀ e, bivariateInit s1 s2 = .error e →
        BAction.acquireIter ∉ (compute_bivariate s1 s2).1) := by
  refine ⟨?_, ?_, ?_, ?_, ?_⟩
  · unfold bivariateInit
    split_ifs with h1 h2 <;> simp_all
  · unfold stationaryBivariateInit
    split_ifs with h1 h2 h3 h4 h5 h6 h7 h8 <;> simp_all
  · intro h1 h2
    simp [bivariateInit, h1, h2]
  · intro h1 h2 h3 h4 h5 h6 h7 h8
    simp [stationaryBivariateInit, h1, h2, h3, h4, h5, h6, h7, h8]
  · intro e he
    cases hg : compatibilityGuard s1.obs s2.obs with
    | error e' => simp [compute_bivariate, hg]
    | ok u => simp [compute_bivariate, hg, he]

/-- C7: the shared-condition set of a bivariate construction is exactly the
set of row-Univariate conditions whose canonical identity also appears
among the column Univariate's conditions, kept in the row list's order (it
is a sublist of the row list); the condition labels are the reserved
"master" entry followed by one label per shared condition, so "master"
always exists.  `Bivariate.__init__` and `StationaryBivariate.__init__`
both build this data via `mkBivariateData`. -/
theorem bivariate_shared_conditions (s1 s2 : Univariate) :
    (∀ c : Condition, c ∈ (mkBivariateData s1 s2).cset ↔
      (c ∈ s1.cset ∧ c.rep ∈ s2.cset.map Condition.rep))
    ∧ (mkBivariateData s1 s2).cset.Sublist s1.cset
    ∧ (mkBivariateData s1 s2).conditionLabels =
        "master" :: (mkBivariateData s1 s2).cset.map Condition.rep
    ∧ "master" ∈ (mkBivariateData s1 s2).conditionLabels := by
  refine ⟨?_, ?_, rfl, List.mem_cons_self _ _⟩
  · intro c
    simp [mkBivariateData, sharedCset, List.mem_filter]
  · exact List.filter_sublist _

/-- C8: after any successful `compute_bivariate` (respectively
`compute_stationary_bivariate`), for every condition label of the result —
"master" included, since it heads the label list — each source Univariate's
`two` (respectively `two_stationary`) entry for that label holds the
result's conditioned item (identified here by its condition label), stored
under the key equal to the partner Univariate's observable label. -/
theorem bivariate_backrefs_installed (s1 s2 : Univariate)
    (region : RegionAttrs) (options : OptionsAttrs)
    (read0 read1 : ReadOutcome) (lab : String) :
    (∀ u1 u2 two, (compute_bivariate s1 s2).2 = .ok (u1, u2, two) →
      lab ∈ two.conditionLabels →
      u1.twoRefs lab s2.obs.name = some lab ∧
        u2.twoRefs lab s1.obs.name = some lab)
    ∧ (∀ u1 u2 stwo,
        (compute_stationary_bivariate s1 s2 region options read0 read1).2 =
          .ok (u1, u2, stwo) →
        lab ∈ stwo.conditionLabels →
        u1.twoStatRefs lab s2.obs.name = some lab ∧
          u2.twoStatRefs lab s1.obs.name = some lab) := by
  constructor
  · intro u1 u2 two h hm
    cases hg : compatibilityGuard s1.obs s2.obs with
    | error e => simp [compute_bivariate, hg] at h
    | ok u =>
      cases hb : bivariateInit s1 s2 with
      | error e => simp [compute_bivariate, hg, hb] at h
      | ok bd =>
        simp [compute_bivariate, hg, hb] at h
        obtain ⟨h1, h2, h3⟩ := h
        subst h1 h2 h3
        constructor <;>
          simp [updateTwoRefs, installRefs_apply, hm]
  · intro u1 u2 stwo h hm
    rcases hd0 : depStep 0 region options read0 with ⟨t0, r0⟩
    cases r0 with
    | error e => simp [compute_stationary_bivariate, hd0] at h
    | ok v0 =>
      rcases hd1 : depStep 1 region options read1 with ⟨t1, r1⟩
      cases r1 with
      | error e => simp [compute_stationary_bivariate, hd0, hd1] at h
      | ok v1 =>
        cases hb : stationaryBivariateInit s1 s2 region options with
        | error e => simp [compute_stationary_bivariate, hd0, hd1, hb] at h
        | ok bd =>
          simp [compute_stationary_bivariate, hd0, hd1, hb] at h
          obtain ⟨h1, h2, h3⟩ := h
          subst h1 h2 h3
          constructor <;>
            simp [updateTwoStatRefs, installRefs_apply, hm]

/-- C3 counterexample: `initialize_stationary_bivariate` applied to an
options value that is not a CompuParams instance (but exposes the
attributes the constructor reads) creates the stationary bivariate and
returns it without any ParamsError: the (region, options) validation does
not precede this stationary construction. -/
theorem stationary_validation_counterexample :
    badOptions.isCompuParams = false
    ∧ (∃ out, initialize_stationary_bivariate sampleUniv1 sampleUniv2
        sampleRegion badOptions = .ok out)
    ∧ (∀ m, initialize_stationary_bivariate sampleUniv1 sampleUniv2
        sampleRegion badOptions ≠ .error (.paramsError m)) := by
  refine ⟨rfl, ⟨_, rfl⟩, ?_⟩
  intro m h
  rw [show initialize_stationary_bivariate sampleUniv1 sampleUniv2
      sampleRegion badOptions =
      .ok (updateTwoStatRefs sampleUniv1
            (mkBivariateData sampleUniv1 sampleUniv2).conditionLabels
            sampleUniv2.obs.name,
          updateTwoStatRefs sampleUniv2
            (mkBivariateData sampleUniv1 sampleUniv2).conditionLabels
            sampleUniv1.obs.name,
          mkBivariateData sampleUniv1 sampleUniv2) from rfl] at h
  exact Except.noConfusion h

/-- C3 (amended): the (region, options) validation precedes the stationary
constructions of `initialize_stationary_univariate`,
`compute_stationary_univariate` and `compute_stationary_bivariate` (whose
dependency phase validates before any stationary object is created), and
the check is never partial — an invalid input always yields a ParamsError
before any creation step; but `initialize_stationary_bivariate` and
`StationaryBivariate.__init__` perform no such validation (see the
counterexample). -/
theorem stationary_validation_spec (region : RegionAttrs)
    (options : OptionsAttrs) (s1 s2 : Univariate) (read0 read1 : ReadOutcome)
    (h : ¬ (region.hasName = true ∧ region.hasTmin = true ∧
        region.hasTmax = true ∧ options.isCompuParams = true)) :
    (∃ m, (initialize_stationary_univariate region options).2 =
        .error (.paramsError m))
    ∧ UAction.uCreate ∉ (initialize_stationary_univariate region options).1
    ∧ (∃ m, (compute_stationary_univariate region options).2 =
        .error (.paramsError m))
    ∧ UAction.uCreate ∉ (compute_stationary_univariate region options).1
    ∧ (∃ m, (compute_stationary_bivariate s1 s2 region options read0 read1).2 =
        .error (.paramsError m))
    ∧ SAction.initSUniv 0 ∉
        (compute_stationary_bivariate s1 s2 region options read0 read1).1
    ∧ SAction.initSBiv ∉
        (compute_stationary_bivariate s1 s2 region options read0 read1).1 := by
  have hcp : ∃ m, _check_params region options = .error (.paramsError m) := by
    obtain ⟨n, t1, t2⟩ := region
    obtain ⟨c, a, dj, sc⟩ := options
    cases n <;> cases t1 <;> cases t2 <;> cases c <;> simp_all [_check_params]
  obtain ⟨m, hm⟩ := hcp
  refine ⟨⟨m, ?_⟩, ?_, ⟨m, ?_⟩, ?_, ⟨m, ?_⟩, ?_, ?_⟩ <;>
    simp [initialize_stationary_univariate, compute_stationary_univariate,
      compute_stationary_bivariate, depStep, hm]

/-- Concrete instantiation of `stationary_validation_spec`: a region with
all attributes and an options value that is not CompuParams. -/
theorem stationary_validation_spec_witness :
    ∃ m, (initialize_stationary_univariate sampleRegion badOptions).2 =
      .error (.paramsError m) :=
  (stationary_validation_spec sampleRegion badOptions sampleUniv1 sampleUniv2
    .success .success (by decide)).1

/-- C2: in `compute_stationary_bivariate` with a valid (region, options)
pair, the dependency phase treats the two Univariates in order; for each,
the fallback (computing the stationary univariate and exporting it) runs
exactly when its cache read raises `StationaryUnivariateIOError`; any other
read error propagates to the caller as is; and when both caches already
exist, no stationary-univariate recomputation appears in the trace — after
the two reads only the StationaryBivariate construction and the cross-phase
aggregation run. -/
theorem stationary_bivariate_dependency_fallback (s1 s2 : Univariate)
    (region : RegionAttrs) (options : OptionsAttrs)
    (read0 read1 : ReadOutcome) (st : BivData)
    (hv : _check_params region options = .ok ()) :
    (SAction.computeSUniv 0 ∈
        (compute_stationary_bivariate s1 s2 region options read0 read1).1 ↔
      read0 = .ioMiss)
    ∧ ((read0 = .success ∨ read0 = .ioMiss) →
        (SAction.computeSUniv 1 ∈
            (compute_stationary_bivariate s1 s2 region options read0 read1).1 ↔
          read1 = .ioMiss))
    ∧ (∀ e, read0 = .failure e →
        (compute_stationary_bivariate s1 s2 region options read0 read1).2 =
          .error e)
    ∧ (∀ e, (read0 = .success ∨ read0 = .ioMiss) → read1 = .failure e →
        (compute_stationary_bivariate s1 s2 region options read0 read1).2 =
          .error e)
    ∧ (read0 = .success → read1 = .success →
        (∀ k, SAction.computeSUniv k ∉
            (compute_stationary_bivariate s1 s2 region options read0 read1).1 ∧
          SAction.exportSUniv k ∉
            (compute_stationary_bivariate s1 s2 region options read0 read1).1)
        ∧ (stationaryBivariateInit s1 s2 region options = .ok st →
            (compute_stationary_bivariate s1 s2 region options read0 read1).1 =
              [.checkParams 0, .initSUniv 0, .readCache 0,
               .checkParams 1, .initSUniv 1, .readCache 1,
               .initSBiv, .crossPhase])) := by
  cases hb : stationaryBivariateInit s1 s2 region options <;>
    cases read0 <;> cases read1 <;>
      simp_all [compute_stationary_bivariate, depStep, hv, hb]

/-- Concrete instantiation of `stationary_bivariate_dependency_fallback`:
a missing cache for the row Univariate triggers its recomputation. -/
theorem stationary_bivariate_dependency_fallback_witness :
    SAction.computeSUniv 0 ∈
      (compute_stationary_bivariate sampleUniv1 sampleUniv2 sampleRegion
        sampleOptions .ioMiss .success).1 :=
  (stationary_bivariate_dependency_fallback sampleUniv1 sampleUniv2
    sampleRegion sampleOptions .ioMiss .success ⟨[], []⟩ rfl).1.mpr rfl

/-- C6 counterexample: with real timing, region tmin 0, tmax 5 and sampling
period 2, the code's grid `arange(0, 5 + 2, 2)` is [0, 2, 4, 6]: it
contains the point 6 beyond tmax and misses tmax itself, so it is not the
arithmetic sequence from tmin to tmax inclusive. -/
theorem eval_times_counterexample :
    eval_times "t" 2 0 5 = [0, 2, 4, 6]
    ∧ (6 : ℚ) ∈ eval_times "t" 2 0 5
    ∧ ¬ ((6 : ℚ) ≤ 5)
    ∧ (5 : ℚ) ∉ eval_times "t" 2 0 5 := by
  have h : eval_times "t" 2 0 5 = [0, 2, 4, 6] := by
    rw [eval_times, if_pos (by decide)]
    unfold np_arange
    have h4 : ⌈((5 : ℚ) + 2 - 0) / 2⌉ = (4 : ℤ) := by
      rw [Int.ceil_eq_iff] <;> norm_num
    rw [h4]
    norm_num [show List.range (Int.toNat 4) = [0, 1, 2, 3] from rfl]
  refine ⟨h, ?_, by norm_num, ?_⟩ <;> rw [h] <;> norm_num

/-- C6 (amended): the grid is `arange(tmin, tmax + period, period)` — the
points tmin + k·period for 0 ≤ k < ⌈(tmax + period − tmin) / period⌉, one
step requested past tmax.  When the period divides the span exactly
(tmax − tmin = m·period), this is the arithmetic sequence from tmin to tmax
inclusive (m + 1 points).  With generation timing the period is 1 and
n_max = (region.tmax − region.tmin) / MIN_INTERDIVISION_TIME with
MIN_INTERDIVISION_TIME = 5; when n_max is a whole number n the grid is the
2n + 1 points −n, −n + 1, …, n. -/
theorem eval_times_spec (timing : String) (period tmin tmax : ℚ) (m n : ℕ)
    (hp : 0 < period) :
    (timing ≠ "g" → tmax - tmin = (m : ℚ) * period →
      eval_times timing period tmin tmax =
        (List.range (m + 1)).map (fun k => tmin + (k : ℚ) * period))
    ∧ (timing = "g" → (tmax - tmin) / MIN_INTERDIVISION_TIME = (n : ℚ) →
      eval_times timing period tmin tmax =
        (List.range (2 * n + 1)).map (fun k => -(n : ℚ) + (k : ℚ))) := by
  have hp' : period ≠ 0 := ne_of_gt hp
  constructor
  · intro ht hspan
    rw [eval_times, if_pos ht]
    unfold np_arange
    have hstop : (tmax + period - tmin) / period = ((m + 1 : ℕ) : ℚ) := by
      have h1 : tmax + period - tmin = ((m : ℚ) + 1) * period := by
        rw [add_mul, one_mul, ← hspan]; ring
      rw [h1, mul_div_assoc, div_self hp', mul_one]
      push_cast
      ring
    rw [hstop, Int.ceil_natCast]
    simp
  · intro ht hn
    rw [eval_times, if_neg (by simp [ht])]
    simp only
    rw [hn]
    unfold np_arange
    have hstop : ((n : ℚ) + 1 - -(n : ℚ)) / 1 = ((2 * n + 1 : ℕ) : ℚ) := by
      push_cast
      ring
    rw [hstop, Int.ceil_natCast, Int.toNat_natCast]
    simp [mul_one]

/-- Concrete instantiation of `eval_times_spec`: the spec's real-timing
example tmin 0, tmax 10, period 2 gives [0, 2, 4, 6, 8, 10], and its
generation-timing example with span 50 gives the 21 points −10, …, 10. -/
theorem eval_times_spec_witness :
    eval_times "t" 2 0 10 = [0, 2, 4, 6, 8, 10]
    ∧ eval_times "g" 1 0 50 =
        [-10, -9, -8, -7, -6, -5, -4, -3, -2, -1, 0,
         1, 2, 3, 4, 5, 6, 7, 8, 9, 10] := by
  constructor
  · rw [(eval_times_spec "t" 2 0 10 5 0 (by norm_num)).1 (by decide) (by norm_num)]
    norm_num [show List.range (5 + 1) = [0, 1, 2, 3, 4, 5] from rfl]
  · rw [(eval_times_spec "g" 1 0 50 0 10 (by norm_num)).2 rfl
      (by norm_num [MIN_INTERDIVISION_TIME])]
    norm_num [show List.range (2 * 10 + 1) =
      [0, 1, 2, 3, 4, 5, 6, 7, 8, 9, 10, 11, 12, 13,
       14, 15, 16, 17, 18, 19, 20] from rfl]

/-- Unfolding of `fmtE8` at a nonzero argument. -/
theorem fmtE8_of_ne (q : ℚ) (hq : q ≠ 0) :
    fmtE8 q = (if q < 0 then (-1 : ℚ) else 1) *
      ((round (|q| / (10 : ℚ) ^ (Int.log 10 |q| - 8)) : ℚ) *
        (10 : ℚ) ^ (Int.log 10 |q| - 8)) := by
  simp [fmtE8, hq]

/-- The two-decimal format of the times rows loses at most half a unit in
the second decimal place. -/
theorem fmt2f_err (t : ℚ) : |fmt2f t - t| ≤ 1 / 200 := by
  have h := abs_sub_round (t * 100)
  have heq : fmt2f t - t = -((t * 100 - (round (t * 100) : ℚ)) / 100) := by
    unfold fmt2f; ring
  rw [heq, abs_neg, abs_div]
  rw [show |(100 : ℚ)| = 100 from abs_of_pos (by norm_num)]
  linarith

/-- The `%.8e` format loses at most half a unit in the ninth significant
digit: the relative error is at most 1 / (2·10⁸). -/
theorem fmtE8_err (q : ℚ) : |fmtE8 q - q| ≤ |q| / (2 * 10 ^ 8) := by
  by_cases hq : q = 0
  · simp [fmtE8, hq]
  · have key : ∀ r : ℚ, 0 < r →
        |((round (r / (10 : ℚ) ^ (Int.log 10 r - 8)) : ℚ)) *
          (10 : ℚ) ^ (Int.log 10 r - 8) - r| ≤ r / (2 * 10 ^ 8) := by
      intro r hr
      have hstep_pos : (0 : ℚ) < (10 : ℚ) ^ (Int.log 10 r - 8) :=
        zpow_pos (by norm_num) _
      have hlog : (10 : ℚ) ^ (Int.log 10 r) ≤ r :=
        Int.zpow_log_le_self (by norm_num) hr
      have h1 := abs_sub_round (r / (10 : ℚ) ^ (Int.log 10 r - 8))
      have hse : (10 : ℚ) ^ (Int.log 10 r - 8) =
          (10 : ℚ) ^ (Int.log 10 r) / 10 ^ 8 := by
        rw [zpow_sub₀ (by norm_num : (10 : ℚ) ≠ 0)]
        norm_num
      generalize hs : (10 : ℚ) ^ (Int.log 10 r - 8) = s at hstep_pos h1 hse ⊢
      have h2 : ((round (r / s) : ℚ)) * s - r =
          -((r / s - (round (r / s) : ℚ)) * s) := by
        field_simp
        ring
      rw [h2, abs_neg, abs_mul, abs_of_pos hstep_pos]
      have h3 : |r / s - (round (r / s) : ℚ)| * s ≤ (1 / 2) * s :=
        mul_le_mul_of_nonneg_right h1 (le_of_lt hstep_pos)
      have h4 : (1 / 2 : ℚ) * s ≤ r / (2 * 10 ^ 8) := by
        rw [hse]
        rw [show (1 / 2 : ℚ) * ((10 : ℚ) ^ (Int.log 10 r) / 10 ^ 8) =
          (10 : ℚ) ^ (Int.log 10 r) / (2 * 10 ^ 8) from by ring]
        gcongr
      linarith
    rcases lt_trichotomy q 0 with hneg | hzero | hpos
    · have habs : |q| = -q := abs_of_neg hneg
      have h := key (-q) (by linarith)
      rw [fmtE8_of_ne q hq, if_pos hneg, habs]
      have harg : (-1 : ℚ) *
          ((round (-q / (10 : ℚ) ^ (Int.log 10 (-q) - 8)) : ℚ) *
            (10 : ℚ) ^ (Int.log 10 (-q) - 8)) - q =
          -(((round (-q / (10 : ℚ) ^ (Int.log 10 (-q) - 8)) : ℚ) *
            (10 : ℚ) ^ (Int.log 10 (-q) - 8)) - -q) := by ring
      rw [harg, abs_neg]
      exact h
    · exact absurd hzero hq
    · have habs : |q| = q := abs_of_pos hpos
      have h := key q hpos
      rw [fmtE8_of_ne q hq, if_neg (not_lt.mpr (le_of_lt hpos)), habs, one_mul]
      exact h

/-- C9: writing a populated conditioned container with `write_text` and
reading it back with `read_text` reproduces its numeric content: the counts
matrix exactly (serialized as plain integers), the floating-point matrices
as their `%.8e` values — each within half a unit in the ninth significant
digit of the original, i.e. well within 8-significant-digit precision — and
the time axes as their two-decimal-place values. -/
theorem bivariate_write_read_roundtrip (d : BivCdtData) :
    (bivCdt_read_text (bivCdt_write_text d)).counts = d.counts
    ∧ (bivCdt_read_text (bivCdt_write_text d)).cross =
        d.cross.map (List.map fmtE8)
    ∧ (bivCdt_read_text (bivCdt_write_text d)).std_dev =
        d.std_dev.map (List.map fmtE8)
    ∧ (bivCdt_read_text (bivCdt_write_text d)).timesRow = d.timesRow.map fmt2f
    ∧ (bivCdt_read_text (bivCdt_write_text d)).timesCol = d.timesCol.map fmt2f
    ∧ (∀ q : ℚ, |fmtE8 q - q| ≤ |q| / (2 * 10 ^ 8))
    ∧ (∀ t : ℚ, |fmt2f t - t| ≤ 1 / 200) :=
  ⟨rfl, rfl, rfl, rfl, rfl, fmtE8_err, fmt2f_err⟩

end Tuna
